import Mathlib

/-!
# Verification of the `apply_patch` policy-gating front-end

Shallow embedding of `src/src/main.rs`: the configuration persistence layer
(`config_path`, `load_config`, `save_config`), the argument scanner of
`run_config_command`, and the dispatch logic of `run_main`.

Modelling conventions:
* JSON documents are a small AST (`Json`); the byte-level parse performed by
  `serde_json::from_slice` is abstracted as an `Option Json` (a file either
  parses to a document or does not), and the derived serde `Deserialize` for
  `Config` is embedded as `decodeConfig`.
* The filesystem and OS are oracles: a `World` records the read result of the
  config file and which of the fallible steps of `save_config` fail.
* Effects (stdout lines, stderr lines, config-file operations, invocations of
  the external apply-engine) are collected in an `Effects` record; each
  `println!`/`eprintln!` call becomes one list element (without the trailing
  newline the macro appends).
* The external engine `codex_apply_patch::apply_patch` is out of scope and is
  passed in as an oracle `engine : String → Bool` (success/failure); its own
  stream output is not modelled.
* OS error strings interpolated into messages (`{err}`) are abstracted.
* The `OsString` → UTF-8 conversion of argv at the top of `run_main` is not
  modelled: arguments enter as `List String`.
-/

/-- JSON value AST standing in for `serde_json::Value`. -/
inductive Json where
  | null : Json
  | bool (b : Bool) : Json
  | num (n : Int) : Json
  | str (s : String) : Json
  | arr (elems : List Json) : Json
  | obj (fields : List (String × Json)) : Json
deriving Repr

/-- `enum Mode { Apply, Refuse, Warn }`. -/
inductive Mode where
  | Apply : Mode
  | Refuse : Mode
  | Warn : Mode
deriving Repr, DecidableEq

/-- `impl Default for Mode`: `Mode::Apply`. -/
def Mode.default : Mode := Mode.Apply

/-- `struct Config { mode, refuse_message, warn_message }`. -/
structure Config where
  mode : Mode
  refuse_message : Option String
  warn_message : Option String
deriving Repr, DecidableEq

/-- `impl Default for Config`: all-defaults value. -/
def Config.default : Config :=
  { mode := Mode.Apply, refuse_message := none, warn_message := none }

/-- serde: `Mode` is deserialized from its lowercase string form
(`#[serde(rename_all = "lowercase")]`); any other JSON value is a decode
error. -/
def decodeMode : Json → Option Mode
  | Json.str "apply" => some Mode.Apply
  | Json.str "refuse" => some Mode.Refuse
  | Json.str "warn" => some Mode.Warn
  | _ => none

/-- serde: `Option<String>` deserializes `null` to `None` and a JSON string
to `Some`; any other JSON value is a decode error. -/
def decodeOptString : Json → Option (Option String)
  | Json.null => some none
  | Json.str s => some (some s)
  | _ => none

/-- First binding of a key in a JSON object (serde reads fields by name). -/
def lookupField : List (String × Json) → String → Option Json
  | [], _ => none
  | (k2, v) :: rest, k => if k2 = k then some v else lookupField rest k

/-- One field of the derived `Deserialize`: `#[serde(default)]` substitutes
the default when the field is absent, but a present field that fails to
decode fails the whole document. -/
def decodeField (fields : List (String × Json)) (key : String)
    (dec : Json → Option α) (dflt : α) : Option α :=
  match lookupField fields key with
  | none => some dflt
  | some v => dec v

/-- Derived `Deserialize for Config`: expects a JSON object; unknown fields
are ignored; each declared field uses `decodeField`. -/
def decodeConfig : Json → Option Config
  | Json.obj fields => do
      let m ← decodeField fields "mode" decodeMode Mode.Apply
      let r ← decodeField fields "refuse_message" decodeOptString none
      let w ← decodeField fields "warn_message" decodeOptString none
      pure { mode := m, refuse_message := r, warn_message := w }
  | _ => none

/-- `serde_json::from_slice::<Config>`: the bytes parse to a document
(`some j`) or not (`none`), then the document decodes to a `Config`. -/
def from_slice (doc : Option Json) : Option Config :=
  doc.bind decodeConfig

/-- `load_config`: a read failure (`none`) yields `Config::default()`;
otherwise `serde_json::from_slice(..).unwrap_or_default()`. -/
def load_config : Option (Option Json) → Config
  | none => Config.default
  | some doc => (from_slice doc).getD Config.default

/-- serde `Serialize` for `Mode` (lowercase strings). -/
def encodeMode : Mode → Json
  | Mode.Apply => Json.str "apply"
  | Mode.Refuse => Json.str "refuse"
  | Mode.Warn => Json.str "warn"

/-- serde `Serialize` for `Option<String>`. -/
def encodeOptString : Option String → Json
  | none => Json.null
  | some s => Json.str s

/-- Derived `Serialize for Config` (the document `serde_json::to_vec_pretty`
renders; for this type serialization cannot fail, so the
`unwrap_or_else(|_| b"\x7b\x7d".to_vec())` fallback in `save_config` is
unreachable). -/
def encodeConfig (c : Config) : Json :=
  Json.obj [("mode", encodeMode c.mode),
            ("refuse_message", encodeOptString c.refuse_message),
            ("warn_message", encodeOptString c.warn_message)]

/-- Split a character list at the LAST occurrence of `c`:
`splitLast c l = some (b, a)` iff `l = b ++ c :: a` with `c ∉ a`. -/
def splitLast (c : Char) : List Char → Option (List Char × List Char)
  | [] => none
  | x :: xs =>
    match splitLast c xs with
    | some (b, a) => some (x :: b, a)
    | none => if x = c then some ([], xs) else none

/-- Split a path string into (directory part including the trailing slash,
file name): the Rust `Path::file_name` view used by `with_extension`.
(Modelled for paths with a nonempty final component, the shape every config
path in this program has.) -/
def splitPath (p : String) : String × String :=
  match splitLast '/' p.data with
  | some (b, a) => (String.mk (b ++ ['/']), String.mk a)
  | none => ("", p)

/-- Rust `Path::file_stem` / `Path::extension` on a file name: the portion
before/after the final dot; a name whose only dot is a leading one (hidden
file) has no extension. -/
def stemExt (name : String) : String × Option String :=
  match splitLast '.' name.data with
  | some (s, e) => if s = [] then (name, none) else (String.mk s, some (String.mk e))
  | none => (name, none)

/-- Rust `Path::extension` lifted to whole paths. -/
def pathExtension (p : String) : Option String :=
  (stemExt (splitPath p).2).2

/-- Rust `Path::with_extension ext`: directory part, then the file stem,
then `.` and the new extension. -/
def withExtension (p : String) (ext : String) : String :=
  (splitPath p).1 ++ (stemExt (splitPath p).2).1 ++ "." ++ ext

/-- Oracle for the fallible filesystem steps of one invocation: the read
result of the config file and which steps of `save_config` fail. -/
structure World where
  file : Option (Option Json)
  createDirFails : Bool
  writeFails : Bool
  pathExists : Bool
  removeFails : Bool
  renameFails : Bool

/-- Filesystem operations attempted by `save_config`, in order. -/
inductive FsOp where
  | createDirAll : FsOp
  | writeFile (path : String) (data : Json) : FsOp
  | removeFile (path : String) : FsOp
  | rename (src : String) (dst : String) : FsOp
deriving Repr

/-- The `std::io::Error` kinds `save_config` can surface, named by the step
that produced them. -/
inductive SaveErr where
  | createDirErr : SaveErr
  | writeErr : SaveErr
  | renameErr : SaveErr
deriving Repr, DecidableEq

/-- `save_config(path, cfg)`: create parent dirs (`?`), serialize, write the
temp file `path.with_extension("json.tmp")` (`?`), remove a pre-existing
file at `path` ignoring failure (`let _ = ...`), rename temp onto `path`
(`?`).  Returns the result together with the trace of attempted operations.
(`path.parent()` is `Some` for every non-root path, so the create step is
always attempted.) -/
def save_config (w : World) (path : String) (cfg : Config) :
    Except SaveErr Unit × List FsOp :=
  let tmp := withExtension path "json.tmp"
  if w.createDirFails then (Except.error SaveErr.createDirErr, [FsOp.createDirAll])
  else
    let data := encodeConfig cfg
    let ops1 := [FsOp.createDirAll, FsOp.writeFile tmp data]
    if w.writeFails then (Except.error SaveErr.writeErr, ops1)
    else
      let ops2 := if w.pathExists then ops1 ++ [FsOp.removeFile path] else ops1
      let ops3 := ops2 ++ [FsOp.rename tmp path]
      if w.renameFails then (Except.error SaveErr.renameErr, ops3)
      else (Except.ok (), ops3)

/-- Environment variables consulted by `config_path`. -/
structure Env where
  apply_patch_config : Option String
  xdg_config_home : Option String
  home : Option String

/-- `config_path()`: the override variable verbatim, else
`<config-home>/.apply_patch/config.json` with config-home from
`XDG_CONFIG_HOME`, else from `HOME`; `None` when all three are unset.
(`PathBuf::join` on these relative components is string concatenation with
`/`.) -/
def config_path (env : Env) : Option String :=
  match env.apply_patch_config with
  | some p => some p
  | none =>
    match env.xdg_config_home with
    | some xdg => some (xdg ++ "/.apply_patch/config.json")
    | none =>
      match env.home with
      | some h => some (h ++ "/.apply_patch/config.json")
      | none => none

/-- `parse_mode`. -/
def parse_mode (s : String) : Option Mode :=
  match s with
  | "apply" => some Mode.Apply
  | "refuse" => some Mode.Refuse
  | "warn" => some Mode.Warn
  | _ => none

/-- The mutable scan state of the `while` loop in `run_config_command`
(`show` is a Lean keyword, so the source's `show` flag is `showConfig`). -/
structure ScanState where
  showConfig : Bool
  mode : Option Mode
  refuse_message : Option (Option String)
  warn_message : Option (Option String)
  positional : List String
deriving Repr, DecidableEq

/-- Scan state at loop entry. -/
def initState : ScanState :=
  { showConfig := false, mode := none, refuse_message := none,
    warn_message := none, positional := [] }

/-- How the scan loop ends: fall out of the loop (`done`), an early
`return Some(2)` with an `eprintln!` message (`usageError`), or the
`-h`/`--help` arm (`help`). -/
inductive ScanResult where
  | done (st : ScanState) : ScanResult
  | usageError (msg : String) : ScanResult
  | help : ScanResult
deriving Repr, DecidableEq

/-- Rust `arg.starts_with('-')`: the first character is a dash. -/
def startsWithDash (a : String) : Bool :=
  match a.data with
  | [] => false
  | c :: _ => c = '-'

/-- The argument scan loop of `run_config_command`, one `match args[i]` arm
per branch; value-bearing flags consume the following token
(`args.get(i + 1)`). -/
def scanArgs : List String → ScanState → ScanResult
  | [], st => ScanResult.done st
  | a :: rest, st =>
    if a = "--show-config" then
      scanArgs rest { st with showConfig := true }
    else if a = "--mode" then
      match rest with
      | [] => ScanResult.usageError "Error: --mode requires a value."
      | v :: rest2 =>
        match parse_mode v with
        | none => ScanResult.usageError ("Error: invalid --mode value: " ++ v)
        | some m => scanArgs rest2 { st with mode := some m }
    else if a = "--apply" then
      scanArgs rest { st with mode := some Mode.Apply }
    else if a = "--refuse" then
      scanArgs rest { st with mode := some Mode.Refuse }
    else if a = "--warn" then
      scanArgs rest { st with mode := some Mode.Warn }
    else if a = "--set-refuse-message" then
      match rest with
      | [] => ScanResult.usageError "Error: --set-refuse-message requires a value."
      | v :: rest2 => scanArgs rest2 { st with refuse_message := some (some v) }
    else if a = "--clear-refuse-message" then
      scanArgs rest { st with refuse_message := some none }
    else if a = "--set-warn-message" then
      match rest with
      | [] => ScanResult.usageError "Error: --set-warn-message requires a value."
      | v :: rest2 => scanArgs rest2 { st with warn_message := some (some v) }
    else if a = "--clear-warn-message" then
      scanArgs rest { st with warn_message := some none }
    else if a = "-h" ∨ a = "--help" then
      ScanResult.help
    else if startsWithDash a then
      ScanResult.usageError ("Error: unknown option: " ++ a)
    else
      scanArgs rest { st with positional := st.positional ++ [a] }

/-- `has_config_flags`. -/
def hasConfigFlags (st : ScanState) : Bool :=
  st.showConfig || st.mode.isSome || st.refuse_message.isSome || st.warn_message.isSome

/-- The three `if let Some(..)` updates applied to the freshly loaded
config. -/
def applyUpdates (cfg : Config) (st : ScanState) : Config :=
  let cfg1 := match st.mode with
    | some m => { cfg with mode := m }
    | none => cfg
  let cfg2 := match st.refuse_message with
    | some v => { cfg1 with refuse_message := v }
    | none => cfg1
  match st.warn_message with
  | some v => { cfg2 with warn_message := v }
  | none => cfg2

/-- Observable effects of one invocation: stdout lines, stderr lines,
config-file operations, and the payloads passed to the external engine. -/
structure Effects where
  stdout : List String
  stderr : List String
  fsOps : List FsOp
  engineCalls : List String
deriving Repr

/-- `DEFAULT_REFUSE_MESSAGE`. -/
def DEFAULT_REFUSE_MESSAGE : String :=
  "NOTE TO LLM:\nYou just ran `apply_patch` as a shell command, not as a model-native editing tool.\nThis environment is configured to refuse shell-based patching, so nothing was changed.\n\nUse your native editing tool (your built-in patch/editor tool) to apply this change now, and do not run `apply_patch` in the shell for future changes."

/-- `DEFAULT_WARN_MESSAGE`. -/
def DEFAULT_WARN_MESSAGE : String :=
  "NOTE TO LLM:\nThe patch was applied by a shell `apply_patch` wrapper.\nFor future changes, use your native editing tool instead of running `apply_patch` in the shell."

/-- The `print_help` usage text (one `writeln!` call). -/
def helpText : String :=
  "apply_patch\n\nApplies Codex-style *** Begin Patch patches from stdin (or a single PATCH argument).\n\nConfig flags (persist in your home directory):\n  --show-config\n  --mode <apply|refuse|warn>   (aliases: --apply, --refuse, --warn)\n  --set-refuse-message <text>\n  --clear-refuse-message\n  --set-warn-message <text>\n  --clear-warn-message\n\nNotes:\n  - Config is stored at $XDG_CONFIG_HOME/.apply_patch/config.json (or ~/.apply_patch/config.json).\n  - You can override the config path with $APPLY_PATCH_CONFIG."

/-- Message of the `config_path()` `else` arm in `run_config_command`. -/
def pathErrMsg : String :=
  "Error: could not determine config path (HOME/XDG_CONFIG_HOME not set)."

/-- Message when configuration flags are mixed with a positional. -/
def mixErrMsg : String :=
  "Error: configuration flags cannot be combined with a PATCH argument."

/-- The two-line usage message `read_patch_from_stdin` prints for empty
stdin (`\x27` is an ASCII apostrophe). -/
def stdinUsageMsg : String :=
  "Usage: apply_patch \x27PATCH\x27\n       echo \x27PATCH\x27 | apply-patch"

/-- OS error text interpolated into `Error: failed to write config: {err}`
(abstracted: the kind name stands in for the OS message). -/
def saveErrText : SaveErr → String
  | SaveErr.createDirErr => "create_dir_all failed"
  | SaveErr.writeErr => "write failed"
  | SaveErr.renameErr => "rename failed"

/-- `mode_str` of the `--show-config` report. -/
def modeStr : Mode → String
  | Mode.Apply => "apply"
  | Mode.Refuse => "refuse"
  | Mode.Warn => "warn"

/-- The four stdout lines of `--show-config`. -/
def showLines (path : String) (cfg : Config) : List String :=
  ["Config file: " ++ path,
   "mode: " ++ modeStr cfg.mode,
   "refuse_message: " ++ (if cfg.refuse_message.isSome then "custom" else "default"),
   "warn_message: " ++ (if cfg.warn_message.isSome then "custom" else "default")]

/-- The stdout of the tail of `run_config_command`: the `--show-config`
report, or the one-line update confirmation. -/
def finishStdout (st : ScanState) (path : String) (cfg : Config) : List String :=
  if st.showConfig then showLines path cfg else ["Updated config: " ++ path]

/-- `run_config_command(args)`: `None` when no configuration flag was seen
(argv is a pure patch invocation); otherwise `Some (exit code, effects)`. -/
def run_config_command (env : Env) (w : World) (args : List String) :
    Option (Int × Effects) :=
  match scanArgs args initState with
  | ScanResult.usageError msg =>
      some (2, { stdout := [], stderr := [msg], fsOps := [], engineCalls := [] })
  | ScanResult.help =>
      some (0, { stdout := [helpText], stderr := [], fsOps := [], engineCalls := [] })
  | ScanResult.done st =>
    if hasConfigFlags st = false then none
    else if st.positional ≠ [] then
      some (2, { stdout := [], stderr := [mixErrMsg], fsOps := [], engineCalls := [] })
    else
      match config_path env with
      | none =>
          some (1, { stdout := [], stderr := [pathErrMsg], fsOps := [], engineCalls := [] })
      | some path =>
        if st.mode.isSome || st.refuse_message.isSome || st.warn_message.isSome then
          match save_config w path (applyUpdates (load_config w.file) st) with
          | (Except.error e, ops) =>
              some (1, { stdout := [],
                         stderr := ["Error: failed to write config: " ++ saveErrText e],
                         fsOps := ops, engineCalls := [] })
          | (Except.ok _, ops) =>
              some (0, { stdout := finishStdout st path (applyUpdates (load_config w.file) st),
                         stderr := [], fsOps := ops, engineCalls := [] })
        else
          some (0, { stdout := finishStdout st path (applyUpdates (load_config w.file) st),
                     stderr := [], fsOps := [], engineCalls := [] })

/-- The mode dispatch at the bottom of `run_main`: `Refuse` prints the
configured or default refuse message and never calls the engine; `Apply`
and `Warn` call the engine, `Warn` additionally printing the warn message
on success; engine failure exits 1. -/
def dispatchPatch (cfg : Config) (engine : String → Bool) (patch : String) :
    Int × Effects :=
  match cfg.mode with
  | Mode.Refuse =>
      (0, { stdout := [cfg.refuse_message.getD DEFAULT_REFUSE_MESSAGE],
            stderr := [], fsOps := [], engineCalls := [] })
  | Mode.Apply =>
      if engine patch then
        (0, { stdout := [], stderr := [], fsOps := [], engineCalls := [patch] })
      else
        (1, { stdout := [], stderr := [], fsOps := [], engineCalls := [patch] })
  | Mode.Warn =>
      if engine patch then
        (0, { stdout := [cfg.warn_message.getD DEFAULT_WARN_MESSAGE],
              stderr := [], fsOps := [], engineCalls := [patch] })
      else
        (1, { stdout := [], stderr := [], fsOps := [], engineCalls := [patch] })

/-- `config_path().as_deref().map(load_config).unwrap_or_default()`. -/
def loadedConfig (env : Env) (w : World) : Config :=
  match config_path env with
  | some _ => load_config w.file
  | none => Config.default

/-- `run_main`: run the configuration command if one was requested, else
load the config, obtain the patch payload (single positional, or stdin),
and dispatch on the mode.  `stdin` is `Except.error e` when
`read_to_string` fails with OS message `e`, else the full input. -/
def run_main (env : Env) (w : World) (stdin : Except String String)
    (engine : String → Bool) (args : List String) : Int × Effects :=
  match run_config_command env w args with
  | some r => r
  | none =>
    match args with
    | [] =>
      match stdin with
      | Except.error e =>
          (1, { stdout := [],
                stderr := ["Error: Failed to read PATCH from stdin.\n" ++ e],
                fsOps := [], engineCalls := [] })
      | Except.ok buf =>
          if buf = "" then
            (2, { stdout := [], stderr := [stdinUsageMsg], fsOps := [], engineCalls := [] })
          else dispatchPatch (loadedConfig env w) engine buf
    | [body] => dispatchPatch (loadedConfig env w) engine body
    | _ =>
        (2, { stdout := [], stderr := ["Error: apply_patch accepts exactly one argument."],
              fsOps := [], engineCalls := [] })

theorem splitLast_sound (c : Char) :
    ∀ (l b a : List Char), splitLast c l = some (b, a) → l = b ++ c :: a := by
  intro l
  induction l with
  | nil => intro b a h; simp [splitLast] at h
  | cons x xs ih =>
    intro b a h
    rw [splitLast] at h
    cases hs : splitLast c xs with
    | some p =>
      obtain ⟨b0, a0⟩ := p
      rw [hs] at h
      simp only [Option.some.injEq, Prod.mk.injEq] at h
      obtain ⟨hb, ha⟩ := h
      subst hb; subst ha
      simp [ih b0 a0 hs]
    | none =>
      rw [hs] at h
      by_cases hx : x = c
      · simp only [if_pos hx, Option.some.injEq, Prod.mk.injEq] at h
        obtain ⟨hb, ha⟩ := h
        subst hb; subst ha; subst hx
        simp
      · simp [if_neg hx] at h

theorem splitPath_recombine (p : String) : (splitPath p).1 ++ (splitPath p).2 = p := by
  apply String.ext
  rw [String.data_append]
  unfold splitPath
  cases hs : splitLast '/' p.data with
  | none => simp
  | some q =>
    obtain ⟨b, a⟩ := q
    have := splitLast_sound '/' p.data b a hs
    simp [this]

theorem stemExt_recombine (name stem e : String)
    (h : stemExt name = (stem, some e)) : name = stem ++ "." ++ e := by
  unfold stemExt at h
  cases hs : splitLast '.' name.data with
  | none => rw [hs] at h; simp at h
  | some q =>
    obtain ⟨s, e0⟩ := q
    rw [hs] at h
    by_cases hnil : s = ([] : List Char)
    · simp [if_pos hnil] at h
    · simp only [if_neg hnil, Prod.mk.injEq, Option.some.injEq] at h
      obtain ⟨h1, h2⟩ := h
      subst h1; subst h2
      apply String.ext
      have := splitLast_sound '.' name.data s e0 hs
      simp [this, String.data_append]

theorem withExtension_of_json_ext (p : String) (h : pathExtension p = some "json") :
    withExtension p "json.tmp" = p ++ ".tmp" := by
  unfold pathExtension at h
  unfold withExtension
  cases hse : stemExt (splitPath p).2 with
  | mk stem oe =>
    rw [hse] at h
    simp only at h
    subst h
    have hname : (splitPath p).2 = stem ++ "." ++ "json" :=
      stemExt_recombine (splitPath p).2 stem "json" hse
    have hp : (splitPath p).1 ++ (splitPath p).2 = p := splitPath_recombine p
    apply String.ext
    simp only [String.data_append]
    have : p.data = (splitPath p).1.data ++ (splitPath p).2.data := by
      rw [← String.data_append, hp]
    rw [this, hname]
    simp [String.data_append]

/-- Unfolding equation for `scanArgs` on a nonempty argument list. -/
theorem scanArgs_cons (a : String) (rest : List String) (st : ScanState) :
    scanArgs (a :: rest) st =
    (if a = "--show-config" then
      scanArgs rest { st with showConfig := true }
    else if a = "--mode" then
      match rest with
      | [] => ScanResult.usageError "Error: --mode requires a value."
      | v :: rest2 =>
        match parse_mode v with
        | none => ScanResult.usageError ("Error: invalid --mode value: " ++ v)
        | some m => scanArgs rest2 { st with mode := some m }
    else if a = "--apply" then
      scanArgs rest { st with mode := some Mode.Apply }
    else if a = "--refuse" then
      scanArgs rest { st with mode := some Mode.Refuse }
    else if a = "--warn" then
      scanArgs rest { st with mode := some Mode.Warn }
    else if a = "--set-refuse-message" then
      match rest with
      | [] => ScanResult.usageError "Error: --set-refuse-message requires a value."
      | v :: rest2 => scanArgs rest2 { st with refuse_message := some (some v) }
    else if a = "--clear-refuse-message" then
      scanArgs rest { st with refuse_message := some none }
    else if a = "--set-warn-message" then
      match rest with
      | [] => ScanResult.usageError "Error: --set-warn-message requires a value."
      | v :: rest2 => scanArgs rest2 { st with warn_message := some (some v) }
    else if a = "--clear-warn-message" then
      scanArgs rest { st with warn_message := some none }
    else if a = "-h" ∨ a = "--help" then
      ScanResult.help
    else if startsWithDash a then
      ScanResult.usageError ("Error: unknown option: " ++ a)
    else
      scanArgs rest { st with positional := st.positional ++ [a] }) := by
  rw [scanArgs.eq_def]

theorem scanArgs_append : ∀ (xs ys : List String) (st st2 : ScanState),
    scanArgs xs st = ScanResult.done st2 →
    scanArgs (xs ++ ys) st = scanArgs ys st2
  | [], ys, st, st2, h => by
    simp only [scanArgs, ScanResult.done.injEq] at h
    subst h
    simp
  | a :: rest, ys, st, st2, h => by
    simp only [List.cons_append]
    rw [scanArgs_cons] at h ⊢
    by_cases h1 : a = "--show-config"
    · rw [if_pos h1] at h ⊢
      exact scanArgs_append rest ys _ st2 h
    · rw [if_neg h1] at h ⊢
      by_cases h2 : a = "--mode"
      · rw [if_pos h2] at h ⊢
        cases rest with
        | nil => simp at h
        | cons v rest2 =>
          simp only [List.cons_append] at h ⊢
          cases hp : parse_mode v with
          | none => rw [hp] at h; simp at h
          | some m =>
            simp only [hp] at h ⊢
            exact scanArgs_append rest2 ys _ st2 h
      · rw [if_neg h2] at h ⊢
        by_cases h3 : a = "--apply"
        · rw [if_pos h3] at h ⊢
          exact scanArgs_append rest ys _ st2 h
        · rw [if_neg h3] at h ⊢
          by_cases h4 : a = "--refuse"
          · rw [if_pos h4] at h ⊢
            exact scanArgs_append rest ys _ st2 h
          · rw [if_neg h4] at h ⊢
            by_cases h5 : a = "--warn"
            · rw [if_pos h5] at h ⊢
              exact scanArgs_append rest ys _ st2 h
            · rw [if_neg h5] at h ⊢
              by_cases h6 : a = "--set-refuse-message"
              · rw [if_pos h6] at h ⊢
                cases rest with
                | nil => simp at h
                | cons v rest2 =>
                  simp only [List.cons_append] at h ⊢
                  exact scanArgs_append rest2 ys _ st2 h
              · rw [if_neg h6] at h ⊢
                by_cases h7 : a = "--clear-refuse-message"
                · rw [if_pos h7] at h ⊢
                  exact scanArgs_append rest ys _ st2 h
                · rw [if_neg h7] at h ⊢
                  by_cases h8 : a = "--set-warn-message"
                  · rw [if_pos h8] at h ⊢
                    cases rest with
                    | nil => simp at h
                    | cons v rest2 =>
                      simp only [List.cons_append] at h ⊢
                      exact scanArgs_append rest2 ys _ st2 h
                  · rw [if_neg h8] at h ⊢
                    by_cases h9 : a = "--clear-warn-message"
                    · rw [if_pos h9] at h ⊢
                      exact scanArgs_append rest ys _ st2 h
                    · rw [if_neg h9] at h ⊢
                      by_cases h10 : a = "-h" ∨ a = "--help"
                      · rw [if_pos h10] at h
                        simp at h
                      · rw [if_neg h10] at h ⊢
                        by_cases h11 : startsWithDash a = true
                        · rw [if_pos h11] at h
                          simp at h
                        · rw [if_neg h11] at h ⊢
                          exact scanArgs_append rest ys _ st2 h

/-- A message has one line when it contains no newline character. -/
def isOneLine (s : String) : Prop := '\n' ∉ s.data

instance (s : String) : Decidable (isOneLine s) := by
  unfold isOneLine; infer_instance

/-- Every usage-error message of the argument scan is one of the three fixed
value-missing messages, or interpolates a token of the argument list into
the invalid-mode or unknown-option template. -/
theorem scanArgs_usageError_shape : ∀ (xs : List String) (st : ScanState) (m : String),
    scanArgs xs st = ScanResult.usageError m →
    m = "Error: --mode requires a value." ∨
    m = "Error: --set-refuse-message requires a value." ∨
    m = "Error: --set-warn-message requires a value." ∨
    (∃ v ∈ xs, m = "Error: invalid --mode value: " ++ v) ∨
    (∃ v ∈ xs, m = "Error: unknown option: " ++ v)
  | [], st, m, h => by simp [scanArgs] at h
  | a :: rest, st, m, h => by
    rw [scanArgs_cons] at h
    by_cases h1 : a = "--show-config"
    · rw [if_pos h1] at h
      rcases scanArgs_usageError_shape rest _ m h with h' | h' | h' | ⟨v, hv, h'⟩ | ⟨v, hv, h'⟩
      · exact Or.inl h'
      · exact Or.inr (Or.inl h')
      · exact Or.inr (Or.inr (Or.inl h'))
      · exact Or.inr (Or.inr (Or.inr (Or.inl ⟨v, List.mem_cons_of_mem a hv, h'⟩)))
      · exact Or.inr (Or.inr (Or.inr (Or.inr ⟨v, List.mem_cons_of_mem a hv, h'⟩)))
    · rw [if_neg h1] at h
      by_cases h2 : a = "--mode"
      · rw [if_pos h2] at h
        cases rest with
        | nil =>
          simp only [ScanResult.usageError.injEq] at h
          exact Or.inl h.symm
        | cons v rest2 =>
          dsimp only at h
          cases hp : parse_mode v with
          | none =>
            rw [hp] at h
            simp only [ScanResult.usageError.injEq] at h
            exact Or.inr (Or.inr (Or.inr (Or.inl
              ⟨v, List.mem_cons_of_mem a (List.mem_cons_self v rest2), h.symm⟩)))
          | some md =>
            rw [hp] at h
            rcases scanArgs_usageError_shape rest2 _ m h with h' | h' | h' | ⟨u, hu, h'⟩ | ⟨u, hu, h'⟩
            · exact Or.inl h'
            · exact Or.inr (Or.inl h')
            · exact Or.inr (Or.inr (Or.inl h'))
            · exact Or.inr (Or.inr (Or.inr (Or.inl
                ⟨u, List.mem_cons_of_mem a (List.mem_cons_of_mem v hu), h'⟩)))
            · exact Or.inr (Or.inr (Or.inr (Or.inr
                ⟨u, List.mem_cons_of_mem a (List.mem_cons_of_mem v hu), h'⟩)))
      · rw [if_neg h2] at h
        by_cases h3 : a = "--apply"
        · rw [if_pos h3] at h
          rcases scanArgs_usageError_shape rest _ m h with h' | h' | h' | ⟨v, hv, h'⟩ | ⟨v, hv, h'⟩
          · exact Or.inl h'
          · exact Or.inr (Or.inl h')
          · exact Or.inr (Or.inr (Or.inl h'))
          · exact Or.inr (Or.inr (Or.inr (Or.inl ⟨v, List.mem_cons_of_mem a hv, h'⟩)))
          · exact Or.inr (Or.inr (Or.inr (Or.inr ⟨v, List.mem_cons_of_mem a hv, h'⟩)))
        · rw [if_neg h3] at h
          by_cases h4 : a = "--refuse"
          · rw [if_pos h4] at h
            rcases scanArgs_usageError_shape rest _ m h with h' | h' | h' | ⟨v, hv, h'⟩ | ⟨v, hv, h'⟩
            · exact Or.inl h'
            · exact Or.inr (Or.inl h')
            · exact Or.inr (Or.inr (Or.inl h'))
            · exact Or.inr (Or.inr (Or.inr (Or.inl ⟨v, List.mem_cons_of_mem a hv, h'⟩)))
            · exact Or.inr (Or.inr (Or.inr (Or.inr ⟨v, List.mem_cons_of_mem a hv, h'⟩)))
          · rw [if_neg h4] at h
            by_cases h5 : a = "--warn"
            · rw [if_pos h5] at h
              rcases scanArgs_usageError_shape rest _ m h with h' | h' | h' | ⟨v, hv, h'⟩ | ⟨v, hv, h'⟩
              · exact Or.inl h'
              · exact Or.inr (Or.inl h')
              · exact Or.inr (Or.inr (Or.inl h'))
              · exact Or.inr (Or.inr (Or.inr (Or.inl ⟨v, List.mem_cons_of_mem a hv, h'⟩)))
              · exact Or.inr (Or.inr (Or.inr (Or.inr ⟨v, List.mem_cons_of_mem a hv, h'⟩)))
            · rw [if_neg h5] at h
              by_cases h6 : a = "--set-refuse-message"
              · rw [if_pos h6] at h
                cases rest with
                | nil =>
                  simp only [ScanResult.usageError.injEq] at h
                  exact Or.inr (Or.inl h.symm)
                | cons v rest2 =>
                  dsimp only at h
                  rcases scanArgs_usageError_shape rest2 _ m h with h' | h' | h' | ⟨u, hu, h'⟩ | ⟨u, hu, h'⟩
                  · exact Or.inl h'
                  · exact Or.inr (Or.inl h')
                  · exact Or.inr (Or.inr (Or.inl h'))
                  · exact Or.inr (Or.inr (Or.inr (Or.inl
                      ⟨u, List.mem_cons_of_mem a (List.mem_cons_of_mem v hu), h'⟩)))
                  · exact Or.inr (Or.inr (Or.inr (Or.inr
                      ⟨u, List.mem_cons_of_mem a (List.mem_cons_of_mem v hu), h'⟩)))
              · rw [if_neg h6] at h
                by_cases h7 : a = "--clear-refuse-message"
                · rw [if_pos h7] at h
                  rcases scanArgs_usageError_shape rest _ m h with h' | h' | h' | ⟨v, hv, h'⟩ | ⟨v, hv, h'⟩
                  · exact Or.inl h'
                  · exact Or.inr (Or.inl h')
                  · exact Or.inr (Or.inr (Or.inl h'))
                  · exact Or.inr (Or.inr (Or.inr (Or.inl ⟨v, List.mem_cons_of_mem a hv, h'⟩)))
                  · exact Or.inr (Or.inr (Or.inr (Or.inr ⟨v, List.mem_cons_of_mem a hv, h'⟩)))
                · rw [if_neg h7] at h
                  by_cases h8 : a = "--set-warn-message"
                  · rw [if_pos h8] at h
                    cases rest with
                    | nil =>
                      simp only [ScanResult.usageError.injEq] at h
                      exact Or.inr (Or.inr (Or.inl h.symm))
                    | cons v rest2 =>
                      dsimp only at h
                      rcases scanArgs_usageError_shape rest2 _ m h with h' | h' | h' | ⟨u, hu, h'⟩ | ⟨u, hu, h'⟩
                      · exact Or.inl h'
                      · exact Or.inr (Or.inl h')
                      · exact Or.inr (Or.inr (Or.inl h'))
                      · exact Or.inr (Or.inr (Or.inr (Or.inl
                          ⟨u, List.mem_cons_of_mem a (List.mem_cons_of_mem v hu), h'⟩)))
                      · exact Or.inr (Or.inr (Or.inr (Or.inr
                          ⟨u, List.mem_cons_of_mem a (List.mem_cons_of_mem v hu), h'⟩)))
                  · rw [if_neg h8] at h
                    by_cases h9 : a = "--clear-warn-message"
                    · rw [if_pos h9] at h
                      rcases scanArgs_usageError_shape rest _ m h with h' | h' | h' | ⟨v, hv, h'⟩ | ⟨v, hv, h'⟩
                      · exact Or.inl h'
                      · exact Or.inr (Or.inl h')
                      · exact Or.inr (Or.inr (Or.inl h'))
                      · exact Or.inr (Or.inr (Or.inr (Or.inl ⟨v, List.mem_cons_of_mem a hv, h'⟩)))
                      · exact Or.inr (Or.inr (Or.inr (Or.inr ⟨v, List.mem_cons_of_mem a hv, h'⟩)))
                    · rw [if_neg h9] at h
                      by_cases h10 : a = "-h" ∨ a = "--help"
                      · rw [if_pos h10] at h
                        simp at h
                      · rw [if_neg h10] at h
                        by_cases h11 : startsWithDash a = true
                        · rw [if_pos h11] at h
                          simp only [ScanResult.usageError.injEq] at h
                          exact Or.inr (Or.inr (Or.inr (Or.inr
                            ⟨a, List.mem_cons_self a rest, h.symm⟩)))
                        · rw [if_neg h11] at h
                          rcases scanArgs_usageError_shape rest _ m h with h' | h' | h' | ⟨v, hv, h'⟩ | ⟨v, hv, h'⟩
                          · exact Or.inl h'
                          · exact Or.inr (Or.inl h')
                          · exact Or.inr (Or.inr (Or.inl h'))
                          · exact Or.inr (Or.inr (Or.inr (Or.inl ⟨v, List.mem_cons_of_mem a hv, h'⟩)))
                          · exact Or.inr (Or.inr (Or.inr (Or.inr ⟨v, List.mem_cons_of_mem a hv, h'⟩)))

theorem isOneLine_append (s t : String) (hs : isOneLine s) (ht : isOneLine t) :
    isOneLine (s ++ t) := by
  unfold isOneLine at hs ht ⊢
  rw [String.data_append]
  intro hmem
  rcases List.mem_append.mp hmem with h | h
  · exact hs h
  · exact ht h

theorem dispatchPatch_fst (cfg : Config) (engine : String → Bool) (p : String) :
    (dispatchPatch cfg engine p).1 = 0 ∨ (dispatchPatch cfg engine p).1 = 1 := by
  unfold dispatchPatch
  cases cfg.mode with
  | Refuse => exact Or.inl rfl
  | Apply =>
    dsimp only
    by_cases he : engine p = true
    · rw [if_pos he]; exact Or.inl rfl
    · rw [if_neg he]; exact Or.inr rfl
  | Warn =>
    dsimp only
    by_cases he : engine p = true
    · rw [if_pos he]; exact Or.inl rfl
    · rw [if_neg he]; exact Or.inr rfl

theorem run_config_command_cases (env : Env) (w : World) (args : List String)
    (r : Int × Effects) (h : run_config_command env w args = some r) :
    (∃ m, scanArgs args initState = ScanResult.usageError m ∧
          r = (2, { stdout := [], stderr := [m], fsOps := [], engineCalls := [] })) ∨
    r = (0, { stdout := [helpText], stderr := [], fsOps := [], engineCalls := [] }) ∨
    r = (2, { stdout := [], stderr := [mixErrMsg], fsOps := [], engineCalls := [] }) ∨
    r.1 = 0 ∨ r.1 = 1 := by
  unfold run_config_command at h
  cases hs : scanArgs args initState with
  | usageError m =>
    rw [hs] at h
    dsimp only at h
    simp only [Option.some.injEq] at h
    exact Or.inl ⟨m, rfl, h.symm⟩
  | help =>
    rw [hs] at h
    dsimp only at h
    simp only [Option.some.injEq] at h
    exact Or.inr (Or.inl h.symm)
  | done st =>
    rw [hs] at h
    dsimp only at h
    by_cases hf : hasConfigFlags st = false
    · rw [if_pos hf] at h
      simp at h
    · rw [if_neg hf] at h
      by_cases hp : st.positional ≠ []
      · rw [if_pos hp] at h
        simp only [Option.some.injEq] at h
        exact Or.inr (Or.inr (Or.inl h.symm))
      · rw [if_neg hp] at h
        cases hc : config_path env with
        | none =>
          rw [hc] at h
          dsimp only at h
          simp only [Option.some.injEq] at h
          subst h
          exact Or.inr (Or.inr (Or.inr (Or.inr rfl)))
        | some path =>
          rw [hc] at h
          dsimp only at h
          by_cases hch : (st.mode.isSome || st.refuse_message.isSome || st.warn_message.isSome) = true
          · rw [if_pos hch] at h
            cases hsv : save_config w path (applyUpdates (load_config w.file) st) with
            | mk res ops =>
              rw [hsv] at h
              cases res with
              | error e =>
                dsimp only at h
                simp only [Option.some.injEq] at h
                subst h
                exact Or.inr (Or.inr (Or.inr (Or.inr rfl)))
              | ok u =>
                dsimp only at h
                simp only [Option.some.injEq] at h
                subst h
                exact Or.inr (Or.inr (Or.inr (Or.inl rfl)))
          · rw [if_neg hch] at h
            simp only [Option.some.injEq] at h
            subst h
            exact Or.inr (Or.inr (Or.inr (Or.inl rfl)))

/-- C4: `load_config` is total by construction, and on a read failure or a
JSON-decode failure it returns the all-defaults `Config`
(mode = Apply, no refuse-message override, no warn-message override). -/
theorem load_config_total_defaults (r : Option (Option Json))
    (h : r = none ∨ ∃ doc, r = some doc ∧ from_slice doc = none) :
    load_config r = Config.default ∧
    Config.default = { mode := Mode.Apply, refuse_message := none, warn_message := none } := by
  refine ⟨?_, rfl⟩
  rcases h with h | ⟨doc, hr, hd⟩
  · subst h; rfl
  · subst hr
    simp [load_config, hd]

/-- Witness for C4: a failed read, and a document that is not a JSON object,
both load as the all-defaults config. -/
theorem load_config_total_defaults_witness :
    load_config none = Config.default ∧
    load_config (some (some (Json.str "garbage"))) = Config.default :=
  ⟨(load_config_total_defaults none (Or.inl rfl)).1,
   (load_config_total_defaults (some (some (Json.str "garbage")))
     (Or.inr ⟨some (Json.str "garbage"), rfl, rfl⟩)).1⟩

/-- C5 counterexample: a temp-file write failure is surfaced to the caller
as an error, and it is not the rename step, so rename is not the only step
whose failure propagates. -/
theorem save_config_write_failure_surfaces :
    (save_config
      { file := none, createDirFails := false, writeFails := true,
        pathExists := false, removeFails := false, renameFails := false }
      "h/.apply_patch/config.json" Config.default).1
      = Except.error SaveErr.writeErr ∧
    SaveErr.writeErr ≠ SaveErr.renameErr :=
  ⟨rfl, by decide⟩

/-- C5 amended: parent-directory creation, the temp-file write, and the
rename each surface their failure to the caller; only removal of a
pre-existing file (failure ignored) and serialization (infallible for this
type, defaulted to an empty object) never propagate. -/
theorem save_config_error_surface (w : World) (path : String) (cfg : Config) :
    ((save_config w path cfg).1 = Except.ok () ↔
      w.createDirFails = false ∧ w.writeFails = false ∧ w.renameFails = false) ∧
    (w.createDirFails = true →
      (save_config w path cfg).1 = Except.error SaveErr.createDirErr) ∧
    (w.createDirFails = false → w.writeFails = true →
      (save_config w path cfg).1 = Except.error SaveErr.writeErr) ∧
    (w.createDirFails = false → w.writeFails = false → w.renameFails = true →
      (save_config w path cfg).1 = Except.error SaveErr.renameErr) := by
  rcases w with ⟨f, cd, wf, pe, rm, rn⟩
  cases cd <;> cases wf <;> cases rn <;> cases pe <;>
    simp [save_config]

/-- Witness for C5 amended: at a failing-removal world with everything else
succeeding, `save_config` still returns `Ok`. -/
theorem save_config_error_surface_witness :
    (save_config
      { file := none, createDirFails := false, writeFails := false,
        pathExists := true, removeFails := true, renameFails := false }
      "h/.apply_patch/config.json" Config.default).1 = Except.ok () :=
  (save_config_error_surface
    { file := none, createDirFails := false, writeFails := false,
      pathExists := true, removeFails := true, renameFails := false }
    "h/.apply_patch/config.json" Config.default).1.mpr ⟨rfl, rfl, rfl⟩

/-- C6 counterexample: a document whose `mode` field is the unrecognized
string `"sometimes"` and whose `refuse_message` field is the valid string
`"KEEP"` loads as the all-defaults config: the valid `refuse_message` is
NOT preserved, because the malformed `mode` fails the whole serde decode
and `unwrap_or_default()` discards the document. -/
theorem load_config_bad_mode_drops_other_fields :
    lookupField [("mode", Json.str "sometimes"), ("refuse_message", Json.str "KEEP")]
        "refuse_message" = some (Json.str "KEEP") ∧
    decodeOptString (Json.str "KEEP") = some (some "KEEP") ∧
    load_config (some (some (Json.obj
      [("mode", Json.str "sometimes"), ("refuse_message", Json.str "KEEP")])))
      = Config.default ∧
    (load_config (some (some (Json.obj
      [("mode", Json.str "sometimes"), ("refuse_message", Json.str "KEEP")])))).refuse_message
      ≠ some "KEEP" :=
  ⟨rfl, rfl, rfl, by decide⟩

/-- C6 amended: a document whose `mode` field holds a value `decodeMode`
rejects fails the whole decode, so loading it yields the all-defaults
config (`mode = Apply` but with every other field reset as well, present
valid fields included). -/
theorem load_config_bad_mode_all_defaults (fields : List (String × Json)) (v : Json)
    (hv : lookupField fields "mode" = some v) (hbad : decodeMode v = none) :
    decodeConfig (Json.obj fields) = none ∧
    load_config (some (some (Json.obj fields))) = Config.default := by
  have hdec : decodeConfig (Json.obj fields) = none := by
    simp only [decodeConfig, decodeField, hv, hbad]
    rfl
  exact ⟨hdec, by simp [load_config, from_slice, hdec]⟩

/-- Witness for C6 amended, at the counterexample document. -/
theorem load_config_bad_mode_all_defaults_witness :
    decodeConfig (Json.obj
      [("mode", Json.str "sometimes"), ("refuse_message", Json.str "KEEP")]) = none :=
  (load_config_bad_mode_all_defaults
    [("mode", Json.str "sometimes"), ("refuse_message", Json.str "KEEP")]
    (Json.str "sometimes") rfl rfl).1

/-- C9 counterexample: for the config path `settings.cfg` (reachable via the
override variable), `save_config` writes the temp file
`settings.json.tmp` — `with_extension("json.tmp")` replaces the existing
extension — which is not `settings.cfg.tmp`, the final path with `.tmp`
appended. -/
theorem save_config_tmp_not_append_tmp :
    (save_config
      { file := none, createDirFails := false, writeFails := false,
        pathExists := false, removeFails := false, renameFails := false }
      "settings.cfg" Config.default).2 =
      [FsOp.createDirAll,
       FsOp.writeFile "settings.json.tmp" (encodeConfig Config.default),
       FsOp.rename "settings.json.tmp" "settings.cfg"] ∧
    ("settings.json.tmp" : String) ≠ "settings.cfg" ++ ".tmp" :=
  ⟨rfl, by decide⟩

/-- C9 amended: in every world, the temp file `save_config` writes the
serialized config to is `path.with_extension("json.tmp")`, which equals
`<path>.tmp` exactly when the path’s file name has extension `json` (as
every default `config.json` path does); whenever a rename occurs it moves
that temp file onto `path`, and the write of the serialized config to the
temp file occurs strictly earlier in the operation trace. -/
theorem save_config_writes_tmp_then_renames (w : World) (path : String) (cfg : Config)
    (hjson : pathExtension path = some "json") :
    ((save_config w path cfg).2 =
      if w.createDirFails then [FsOp.createDirAll]
      else
        FsOp.createDirAll :: FsOp.writeFile (path ++ ".tmp") (encodeConfig cfg) ::
          (if w.writeFails then []
           else (if w.pathExists then [FsOp.removeFile path] else []) ++
             [FsOp.rename (path ++ ".tmp") path])) ∧
    (∀ s t, FsOp.rename s t ∈ (save_config w path cfg).2 →
      s = path ++ ".tmp" ∧ t = path ∧
      ∃ pre post, (save_config w path cfg).2 =
          pre ++ FsOp.writeFile (path ++ ".tmp") (encodeConfig cfg) :: post ∧
        FsOp.rename s t ∈ post) := by
  have ht : withExtension path "json.tmp" = path ++ ".tmp" :=
    withExtension_of_json_ext path hjson
  have htrace : (save_config w path cfg).2 =
      if w.createDirFails then [FsOp.createDirAll]
      else
        FsOp.createDirAll :: FsOp.writeFile (path ++ ".tmp") (encodeConfig cfg) ::
          (if w.writeFails then []
           else (if w.pathExists then [FsOp.removeFile path] else []) ++
             [FsOp.rename (path ++ ".tmp") path]) := by
    unfold save_config
    rw [ht]
    rcases w with ⟨f, cd, wf, pe, rm, rn⟩
    cases cd <;> cases wf <;> cases pe <;> cases rn <;> simp
  refine ⟨htrace, ?_⟩
  intro s t hmem
  rw [htrace] at hmem
  by_cases hcd : w.createDirFails = true
  · rw [if_pos hcd] at hmem
    simp at hmem
  · rw [if_neg hcd] at hmem
    by_cases hwf : w.writeFails = true
    · rw [if_pos hwf] at hmem
      simp at hmem
    · rw [if_neg hwf] at hmem
      by_cases hpe : w.pathExists = true
      · rw [if_pos hpe] at hmem
        simp only [List.mem_cons, List.mem_append, List.mem_singleton,
          List.not_mem_nil, or_false, false_or] at hmem
        rcases hmem with h0 | h0 | h0 | h0
        · exact absurd h0 (by simp)
        · exact absurd h0 (by simp)
        · exact absurd h0 (by simp)
        · obtain ⟨hs, ht2⟩ := FsOp.rename.inj h0
          refine ⟨hs, ht2, [FsOp.createDirAll],
            [FsOp.removeFile path, FsOp.rename (path ++ ".tmp") path], ?_, ?_⟩
          · rw [htrace, if_neg hcd, if_neg hwf, if_pos hpe]
            rfl
          · rw [hs, ht2]
            simp
      · rw [if_neg hpe] at hmem
        simp only [List.mem_cons, List.mem_append, List.mem_singleton,
          List.not_mem_nil, or_false, false_or] at hmem
        rcases hmem with h0 | h0 | h0
        · exact absurd h0 (by simp)
        · exact absurd h0 (by simp)
        · obtain ⟨hs, ht2⟩ := FsOp.rename.inj h0
          refine ⟨hs, ht2, [FsOp.createDirAll],
            [FsOp.rename (path ++ ".tmp") path], ?_, ?_⟩
          · rw [htrace, if_neg hcd, if_neg hwf, if_neg hpe]
            rfl
          · rw [hs, ht2]
            simp

/-- Witness for C9 amended at the default-shaped path
`h/.apply_patch/config.json`, in a world where the config file already
exists (the normal mutation case): the serialized config is written to the
temp file and only then renamed onto the final path, with the
best-effort removal in between. -/
theorem save_config_writes_tmp_then_renames_witness :
    pathExtension "h/.apply_patch/config.json" = some "json" ∧
    (save_config
      { file := none, createDirFails := false, writeFails := false,
        pathExists := true, removeFails := true, renameFails := false }
      "h/.apply_patch/config.json" Config.default).2 =
      [FsOp.createDirAll,
       FsOp.writeFile ("h/.apply_patch/config.json" ++ ".tmp") (encodeConfig Config.default),
       FsOp.removeFile "h/.apply_patch/config.json",
       FsOp.rename ("h/.apply_patch/config.json" ++ ".tmp") "h/.apply_patch/config.json"] :=
  ⟨rfl,
   by
    rw [(save_config_writes_tmp_then_renames
      { file := none, createDirFails := false, writeFails := false,
        pathExists := true, removeFails := true, renameFails := false }
      "h/.apply_patch/config.json" Config.default rfl).1]
    rfl⟩

/-- The environment with the override variable, the config-home variable
and the home-directory variable all unset. -/
def envNone : Env :=
  { apply_patch_config := none, xdg_config_home := none, home := none }

/-- C1 counterexample: with all three path variables unset, a plain patch
invocation does not exit 1 — the unresolvable config path is silently
replaced by the default config and the engine runs (here succeeding, so the
process exits 0). -/
theorem unresolved_path_patch_run_exits_zero :
    run_main envNone
      { file := none, createDirFails := false, writeFails := false,
        pathExists := false, removeFails := false, renameFails := false }
      (Except.ok "") (fun _ => true) ["*** Begin Patch"] =
      (0, { stdout := [], stderr := [], fsOps := [],
            engineCalls := ["*** Begin Patch"] }) ∧
    (0 : Int) ≠ 1 :=
  ⟨by rfl, by decide⟩

/-- C1 amended: with all three path variables unset, every configuration
command (at least one configuration flag, no positionals) exits 1 with the
path-undetermined message; the patch-execution path instead falls back to
the all-defaults config and proceeds. -/
theorem unresolved_path_config_command_exits_one (w : World) (args : List String)
    (st : ScanState) (hscan : scanArgs args initState = ScanResult.done st)
    (hflags : hasConfigFlags st = true) (hpos : st.positional = []) :
    run_config_command envNone w args =
      some (1, { stdout := [], stderr := [pathErrMsg], fsOps := [], engineCalls := [] }) ∧
    (∀ (w2 : World) (stdin : Except String String) (engine : String → Bool) (p : String),
      run_config_command envNone w2 [p] = none →
      run_main envNone w2 stdin engine [p] = dispatchPatch Config.default engine p) := by
  constructor
  · unfold run_config_command
    rw [hscan]
    dsimp only
    rw [if_neg (by simp [hflags]), if_neg (by simp [hpos])]
    rfl
  · intro w2 stdin engine p hnone
    unfold run_main
    rw [hnone]
    dsimp only
    rfl

/-- Witness for C1 amended: `--show-config` with no path variables set. -/
theorem unresolved_path_config_command_exits_one_witness :
    run_config_command envNone
      { file := none, createDirFails := false, writeFails := false,
        pathExists := false, removeFails := false, renameFails := false }
      ["--show-config"] =
      some (1, { stdout := [], stderr := [pathErrMsg], fsOps := [], engineCalls := [] }) :=
  (unresolved_path_config_command_exits_one
    { file := none, createDirFails := false, writeFails := false,
      pathExists := false, removeFails := false, renameFails := false }
    ["--show-config"]
    { showConfig := true, mode := none, refuse_message := none,
      warn_message := none, positional := [] }
    rfl rfl rfl).1

/-- C2: whenever the loaded config is in Refuse mode and a payload is
obtained (single positional, or non-empty stdin), the process prints the
configured refuse message — or the built-in default when none is set — to
stdout, never invokes the engine, performs no config-file operation, and
exits 0. -/
theorem refuse_mode_prints_and_skips_engine (env : Env) (w : World)
    (stdin : Except String String) (engine : String → Bool)
    (args : List String) (payload : String)
    (hnone : run_config_command env w args = none)
    (hmode : (loadedConfig env w).mode = Mode.Refuse)
    (hpay : args = [payload] ∨ (args = [] ∧ stdin = Except.ok payload ∧ payload ≠ "")) :
    run_main env w stdin engine args =
      (0, { stdout := [(loadedConfig env w).refuse_message.getD DEFAULT_REFUSE_MESSAGE],
            stderr := [], fsOps := [], engineCalls := [] }) := by
  have hdisp : dispatchPatch (loadedConfig env w) engine payload =
      (0, { stdout := [(loadedConfig env w).refuse_message.getD DEFAULT_REFUSE_MESSAGE],
            stderr := [], fsOps := [], engineCalls := [] }) := by
    unfold dispatchPatch
    rw [hmode]
  rcases hpay with h | ⟨ha, hs, hne⟩
  · subst h
    unfold run_main
    rw [hnone]
    dsimp only
    exact hdisp
  · subst ha
    unfold run_main
    rw [hnone]
    dsimp only
    rw [hs]
    dsimp only
    rw [if_neg hne]
    exact hdisp

/-- Witness for C2: a stored Refuse-mode config with no custom message and
a single positional payload print the built-in refuse notice. -/
theorem refuse_mode_prints_and_skips_engine_witness :
    run_main { apply_patch_config := none, xdg_config_home := none, home := some "/home/u" }
      { file := some (some (Json.obj [("mode", Json.str "refuse")])),
        createDirFails := false, writeFails := false, pathExists := false,
        removeFails := false, renameFails := false }
      (Except.ok "") (fun _ => true) ["*** Begin Patch"] =
      (0, { stdout := [DEFAULT_REFUSE_MESSAGE], stderr := [], fsOps := [], engineCalls := [] }) :=
  refuse_mode_prints_and_skips_engine
    { apply_patch_config := none, xdg_config_home := none, home := some "/home/u" }
    { file := some (some (Json.obj [("mode", Json.str "refuse")])),
      createDirFails := false, writeFails := false, pathExists := false,
      removeFails := false, renameFails := false }
    (Except.ok "") (fun _ => true) ["*** Begin Patch"] "*** Begin Patch"
    (by rfl) (by rfl) (Or.inl rfl)

/-- C3: on the patch-execution path (`run_config_command` yields `None`),
exactly one positional is the payload; zero positionals read stdin, empty
stdin being a usage error with exit 2; two or more positionals exit 2 with
the exactly-one-argument message. -/
theorem patch_payload_selection (env : Env) (w : World)
    (stdin : Except String String) (engine : String → Bool) (args : List String)
    (hnone : run_config_command env w args = none) :
    (∀ b, args = [b] →
      run_main env w stdin engine args = dispatchPatch (loadedConfig env w) engine b) ∧
    (args = [] → stdin = Except.ok "" →
      run_main env w stdin engine args =
        (2, { stdout := [], stderr := [stdinUsageMsg], fsOps := [], engineCalls := [] })) ∧
    (args = [] → ∀ s, stdin = Except.ok s → s ≠ "" →
      run_main env w stdin engine args = dispatchPatch (loadedConfig env w) engine s) ∧
    (2 ≤ args.length →
      run_main env w stdin engine args =
        (2, { stdout := [], stderr := ["Error: apply_patch accepts exactly one argument."],
              fsOps := [], engineCalls := [] })) := by
  refine ⟨?_, ?_, ?_, ?_⟩
  · intro b hb
    subst hb
    unfold run_main
    rw [hnone]
  · intro ha hs
    subst ha
    unfold run_main
    rw [hnone]
    dsimp only
    rw [hs]
    rfl
  · intro ha s hs hne
    subst ha
    unfold run_main
    rw [hnone]
    dsimp only
    rw [hs]
    dsimp only
    rw [if_neg hne]
  · intro hlen
    match args, hlen with
    | a :: b :: rest, _ =>
      unfold run_main
      rw [hnone]

/-- Witness for C3: a single positional is dispatched as the payload. -/
theorem patch_payload_selection_witness :
    run_main { apply_patch_config := none, xdg_config_home := none, home := some "/home/u" }
      { file := none, createDirFails := false, writeFails := false,
        pathExists := false, removeFails := false, renameFails := false }
      (Except.ok "") (fun _ => true) ["thepatch"] =
      dispatchPatch
        (loadedConfig { apply_patch_config := none, xdg_config_home := none, home := some "/home/u" }
          { file := none, createDirFails := false, writeFails := false,
            pathExists := false, removeFails := false, renameFails := false })
        (fun _ => true) "thepatch" :=
  (patch_payload_selection
    { apply_patch_config := none, xdg_config_home := none, home := some "/home/u" }
    { file := none, createDirFails := false, writeFails := false,
      pathExists := false, removeFails := false, renameFails := false }
    (Except.ok "") (fun _ => true) ["thepatch"] (by rfl)).1 "thepatch" rfl

/-- C7 counterexample: the empty-stdin usage error (exit 2) prints the
usage message, which spans two lines, not one. -/
theorem empty_stdin_usage_message_two_lines :
    run_main { apply_patch_config := none, xdg_config_home := none, home := some "/home/u" }
      { file := none, createDirFails := false, writeFails := false,
        pathExists := false, removeFails := false, renameFails := false }
      (Except.ok "") (fun _ => true) [] =
      (2, { stdout := [], stderr := [stdinUsageMsg], fsOps := [], engineCalls := [] }) ∧
    ¬ isOneLine stdinUsageMsg :=
  ⟨by rfl, by decide⟩

/-- C7 amended: every exit-2 outcome of `run_main` prints nothing to
stdout, performs no config-file operation, never calls the engine, and puts
exactly one message on stderr; that message is one line (whenever the
argument tokens it interpolates are newline-free), except the empty-stdin
usage message, which spans two lines. -/
theorem usage_errors_single_message_no_write (env : Env) (w : World)
    (stdin : Except String String) (engine : String → Bool) (args : List String)
    (eff : Effects) (h : run_main env w stdin engine args = (2, eff)) :
    eff.stdout = [] ∧ eff.fsOps = [] ∧ eff.engineCalls = [] ∧
    ∃ m, eff.stderr = [m] ∧
      (m = stdinUsageMsg ∨ ((∀ a ∈ args, isOneLine a) → isOneLine m)) := by
  unfold run_main at h
  cases hrc : run_config_command env w args with
  | some r =>
    rw [hrc] at h
    dsimp only at h
    subst h
    rcases run_config_command_cases env w args (2, eff) hrc with
      ⟨m, hm, hr⟩ | hr | hr | hr | hr
    · have he : eff = { stdout := [], stderr := [m], fsOps := [], engineCalls := [] } :=
        congrArg Prod.snd hr
      subst he
      refine ⟨rfl, rfl, rfl, m, rfl, Or.inr fun hall => ?_⟩
      rcases scanArgs_usageError_shape args initState m hm with
        h' | h' | h' | ⟨v, hv, h'⟩ | ⟨v, hv, h'⟩
      · subst h'; decide
      · subst h'; decide
      · subst h'; decide
      · subst h'
        exact isOneLine_append "Error: invalid --mode value: " v (by decide) (hall v hv)
      · subst h'
        exact isOneLine_append "Error: unknown option: " v (by decide) (hall v hv)
    · have h0 := congrArg Prod.fst hr
      dsimp only at h0
      exact absurd h0 (by decide)
    · have he : eff = { stdout := [], stderr := [mixErrMsg], fsOps := [], engineCalls := [] } :=
        congrArg Prod.snd hr
      subst he
      exact ⟨rfl, rfl, rfl, mixErrMsg, rfl, Or.inr fun _ => by decide⟩
    · dsimp only at hr
      exact absurd hr (by decide)
    · dsimp only at hr
      exact absurd hr (by decide)
  | none =>
    rw [hrc] at h
    dsimp only at h
    cases args with
    | nil =>
      cases stdin with
      | error e =>
        have h0 := congrArg Prod.fst h
        dsimp only at h0
        exact absurd h0 (by decide)
      | ok buf =>
        dsimp only at h
        by_cases hb : buf = ""
        · rw [if_pos hb] at h
          have he : eff = { stdout := [], stderr := [stdinUsageMsg], fsOps := [], engineCalls := [] } :=
            (congrArg Prod.snd h).symm
          subst he
          exact ⟨rfl, rfl, rfl, stdinUsageMsg, rfl, Or.inl rfl⟩
        · rw [if_neg hb] at h
          rcases dispatchPatch_fst (loadedConfig env w) engine buf with h0 | h0 <;>
            rw [h] at h0 <;> dsimp only at h0 <;> exact absurd h0 (by decide)
    | cons a rest =>
      cases rest with
      | nil =>
        dsimp only at h
        rcases dispatchPatch_fst (loadedConfig env w) engine a with h0 | h0 <;>
          rw [h] at h0 <;> dsimp only at h0 <;> exact absurd h0 (by decide)
      | cons b rest2 =>
        dsimp only at h
        have he : eff = { stdout := [], stderr := ["Error: apply_patch accepts exactly one argument."], fsOps := [], engineCalls := [] } :=
          (congrArg Prod.snd h).symm
        subst he
        exact ⟨rfl, rfl, rfl, "Error: apply_patch accepts exactly one argument.", rfl,
          Or.inr fun _ => by decide⟩

/-- Witness for C7: the two-positionals usage error has a single, one-line
stderr message. -/
theorem usage_errors_single_message_no_write_witness :
    ∃ m, ({ stdout := [], stderr := ["Error: apply_patch accepts exactly one argument."],
            fsOps := [], engineCalls := [] } : Effects).stderr = [m] ∧
      (m = stdinUsageMsg ∨ ((∀ a ∈ ["p1", "p2"], isOneLine a) → isOneLine m)) :=
  (usage_errors_single_message_no_write
    { apply_patch_config := none, xdg_config_home := none, home := some "/home/u" }
    { file := none, createDirFails := false, writeFails := false,
      pathExists := false, removeFails := false, renameFails := false }
    (Except.ok "") (fun _ => true) ["p1", "p2"]
    { stdout := [], stderr := ["Error: apply_patch accepts exactly one argument."],
      fsOps := [], engineCalls := [] }
    (by rfl)).2.2.2

/-- C8 counterexample: with `-h` present in argv but preceded by an unknown
option, the process exits 2 with the unknown-option error instead of
printing the usage text and exiting 0. -/
theorem help_after_unknown_option_exits_two :
    run_config_command { apply_patch_config := none, xdg_config_home := none, home := some "/home/u" }
      { file := none, createDirFails := false, writeFails := false,
        pathExists := false, removeFails := false, renameFails := false }
      ["--frobnicate", "-h"] =
      some (2, { stdout := [], stderr := ["Error: unknown option: --frobnicate"],
                 fsOps := [], engineCalls := [] }) ∧
    (2 : Int) ≠ 0 :=
  ⟨by rfl, by decide⟩

/-- C8 amended: a `-h`/`--help` token short-circuits to the usage text and
exit 0 when the left-to-right scan reaches it — i.e. when every earlier
token scans without a usage error and without consuming the help token as a
flag value; the tokens after it are ignored entirely. -/
theorem help_token_reached_short_circuits (env : Env) (w : World)
    (stdin : Except String String) (engine : String → Bool)
    (pre post : List String) (tok : String) (st : ScanState)
    (hpre : scanArgs pre initState = ScanResult.done st)
    (htok : tok = "-h" ∨ tok = "--help") :
    run_main env w stdin engine (pre ++ tok :: post) =
      (0, { stdout := [helpText], stderr := [], fsOps := [], engineCalls := [] }) := by
  have hs : scanArgs (pre ++ tok :: post) initState = ScanResult.help := by
    rw [scanArgs_append pre (tok :: post) initState st hpre]
    rcases htok with h | h <;> subst h <;>
      rw [scanArgs_cons] <;>
      rw [if_neg (by decide), if_neg (by decide), if_neg (by decide), if_neg (by decide),
          if_neg (by decide), if_neg (by decide), if_neg (by decide), if_neg (by decide),
          if_neg (by decide), if_pos (by decide)]
  unfold run_main run_config_command
  rw [hs]

/-- Witness for C8 amended: `--apply -h junk` prints the help text and
exits 0. -/
theorem help_token_reached_short_circuits_witness :
    run_main { apply_patch_config := none, xdg_config_home := none, home := some "/home/u" }
      { file := none, createDirFails := false, writeFails := false,
        pathExists := false, removeFails := false, renameFails := false }
      (Except.ok "") (fun _ => true) (["--apply"] ++ "-h" :: ["junk"]) =
      (0, { stdout := [helpText], stderr := [], fsOps := [], engineCalls := [] }) :=
  help_token_reached_short_circuits
    { apply_patch_config := none, xdg_config_home := none, home := some "/home/u" }
    { file := none, createDirFails := false, writeFails := false,
      pathExists := false, removeFails := false, renameFails := false }
    (Except.ok "") (fun _ => true) ["--apply"] ["junk"] "-h"
    { showConfig := false, mode := some Mode.Apply, refuse_message := none,
      warn_message := none, positional := [] }
    (by rfl) (Or.inl rfl)

/-- Unfolding equation for `scanArgs` on the empty argument list. -/
theorem scanArgs_nil (st : ScanState) : scanArgs [] st = ScanResult.done st := by
  rw [scanArgs.eq_def]

/-- C10: when several flags target the same config field, the rightmost
occurrence determines the pending value (`--refuse` after `--apply`;
`--clear-refuse-message` after `--set-refuse-message x`), the value applied
to the loaded config comes from that rightmost occurrence, and the config
persisted by `run_config_command` is the one so updated. -/
theorem rightmost_flag_wins (env : Env) (w : World) (args : List String)
    (st : ScanState) (x : String) (path : String)
    (hscan : scanArgs args initState = ScanResult.done st) :
    scanArgs (args ++ ["--apply", "--refuse"]) initState =
      ScanResult.done { st with mode := some Mode.Refuse } ∧
    scanArgs (args ++ ["--set-refuse-message", x, "--clear-refuse-message"]) initState =
      ScanResult.done { st with refuse_message := some none } ∧
    (∀ cfg, (applyUpdates cfg { st with mode := some Mode.Refuse }).mode = Mode.Refuse) ∧
    (∀ cfg, (applyUpdates cfg { st with refuse_message := some none }).refuse_message = none) ∧
    (st.positional = [] → config_path env = some path →
     w.createDirFails = false → w.writeFails = false → w.renameFails = false →
      run_config_command env w (args ++ ["--apply", "--refuse"]) =
        some (0, { stdout := finishStdout { st with mode := some Mode.Refuse } path
                     (applyUpdates (load_config w.file) { st with mode := some Mode.Refuse }),
                   stderr := [],
                   fsOps := (save_config w path
                     (applyUpdates (load_config w.file) { st with mode := some Mode.Refuse })).2,
                   engineCalls := [] })) := by
  have h1 : scanArgs (args ++ ["--apply", "--refuse"]) initState =
      ScanResult.done { st with mode := some Mode.Refuse } := by
    rw [scanArgs_append args _ initState st hscan]
    rw [scanArgs_cons]
    rw [if_neg (by decide), if_neg (by decide), if_pos (by decide)]
    rw [scanArgs_cons]
    rw [if_neg (by decide), if_neg (by decide), if_neg (by decide), if_pos (by decide)]
    rw [scanArgs_nil]
  have h2 : scanArgs (args ++ ["--set-refuse-message", x, "--clear-refuse-message"]) initState =
      ScanResult.done { st with refuse_message := some none } := by
    rw [scanArgs_append args _ initState st hscan]
    rw [scanArgs_cons]
    rw [if_neg (by decide), if_neg (by decide), if_neg (by decide), if_neg (by decide),
        if_neg (by decide), if_pos (by decide)]
    dsimp only
    rw [scanArgs_cons]
    rw [if_neg (by decide), if_neg (by decide), if_neg (by decide), if_neg (by decide),
        if_neg (by decide), if_neg (by decide), if_pos (by decide)]
    rw [scanArgs_nil]
  refine ⟨h1, h2, ?_, ?_, ?_⟩
  · intro cfg
    unfold applyUpdates
    dsimp only
    cases st.refuse_message <;> cases st.warn_message <;> rfl
  · intro cfg
    unfold applyUpdates
    dsimp only
    cases st.mode <;> cases st.warn_message <;> rfl
  · intro hpos hcp hcd hwf hrn
    unfold run_config_command
    rw [h1]
    dsimp only
    rw [if_neg (by simp [hasConfigFlags]), if_neg (by simp [hpos]), hcp]
    dsimp only
    rw [if_pos (by simp)]
    cases hsv : save_config w path (applyUpdates (load_config w.file)
        { st with mode := some Mode.Refuse }) with
    | mk res ops =>
      have hres : res = Except.ok () := by
        have h0 := congrArg Prod.fst hsv
        dsimp only at h0
        rw [← h0]
        unfold save_config
        rw [hcd, hwf, hrn]
        cases w.pathExists <;> rfl
      subst hres
      dsimp only

/-- Witness for C10: after `--warn --apply --refuse`, the persisted mode is
Refuse, and the scan state records the rightmost flag. -/
theorem rightmost_flag_wins_witness :
    scanArgs (["--warn"] ++ ["--apply", "--refuse"]) initState =
      ScanResult.done { showConfig := false, mode := some Mode.Refuse,
                        refuse_message := none, warn_message := none, positional := [] } ∧
    (∀ cfg, (applyUpdates cfg { showConfig := false, mode := some Mode.Refuse,
                                refuse_message := none, warn_message := none,
                                positional := [] }).mode = Mode.Refuse) :=
  ⟨((rightmost_flag_wins
      { apply_patch_config := some "/cfg/config.json", xdg_config_home := none, home := none }
      { file := none, createDirFails := false, writeFails := false,
        pathExists := false, removeFails := false, renameFails := false }
      ["--warn"]
      { showConfig := false, mode := some Mode.Warn, refuse_message := none,
        warn_message := none, positional := [] }
      "x" "/cfg/config.json" (by rfl)).1),
   ((rightmost_flag_wins
      { apply_patch_config := some "/cfg/config.json", xdg_config_home := none, home := none }
      { file := none, createDirFails := false, writeFails := false,
        pathExists := false, removeFails := false, renameFails := false }
      ["--warn"]
      { showConfig := false, mode := some Mode.Warn, refuse_message := none,
        warn_message := none, positional := [] }
      "x" "/cfg/config.json" (by rfl)).2.2.1)⟩
